import Mathlib

/-!
A shallow embedding of the fetch-throttler package: the `RequestPool`
scheduler (queue, concurrency counter, interval timestamps, retry
classification) and the `ThrottledFetch` dispatcher (rule matching and
routing).  Definitions are translated from
`packages/fetch-throttler/src/RequestPool.ts`,
`packages/fetch-throttler/src/ThrottledFetch.ts` and the `fillDefaults`
helper of `utils.ts`.
-/

namespace ThrottlerModel

/-- A JavaScript value reaching the result-handling code of the pool:
either a fetch Response carrying its `ok` flag, or an arbitrary
thrown/rejected value.  The `tag` field distinguishes concrete values. -/
inductive JsVal where
  | resp (ok : Bool) (tag : Nat)
  | exn (tag : Nat)
deriving DecidableEq

/-- The `ok` flag read by `!(result as Response).ok` in `#handleResult_`;
it is only consulted when the settlement was a fulfilment. -/
def JsVal.isOk : JsVal → Bool
  | .resp ok _ => ok
  | .exn _ => false

/-- The effect `#handleResult_` performs on a queue item: fire the success
callback with a value, fire the failure callback with a value, or
re-enqueue the item with its retry counter incremented. -/
inductive HandleAction where
  | success (v : JsVal)
  | failure (v : JsVal)
  | requeue
deriving DecidableEq

/-- RequestPool.#handleResult_ (RequestPool.ts lines 80-90):
`shouldRetry ??= success ? !(result as Response).ok : true;` then the
three-way branch between onSuccess, onFailure and re-enqueue. -/
def handleResult_ (maxRetry retried : Nat) (result : JsVal) (success : Bool)
    (shouldRetry : Option Bool) : HandleAction :=
  let sr := shouldRetry.getD (if success then !result.isOk else true)
  if !sr && success then .success result
  else if (!sr && !success) || (sr && decide (retried ≥ maxRetry)) then .failure result
  else .requeue

/-- RequestPool.#handleResult (RequestPool.ts lines 92-97).  The configured
`shouldRetry` predicate may return a decision, return undefined (`none`),
throw synchronously, or return a promise that rejects; the two failure
modes are both modelled by `Except.error` since both turn the enclosing
then/catch stage into a rejection carrying the thrown value.  An absent
predicate is the constant `fun v => Except.ok none`. -/
def handleResult (maxRetry retried : Nat)
    (shouldRetry : JsVal → Except JsVal (Option Bool))
    (result : JsVal) (success : Bool) : Except JsVal HandleAction :=
  (shouldRetry result).map (handleResult_ maxRetry retried result success)

/-- The settlement chain built in RequestPool.#process (lines 114-118):
`adapter(...).finally(dec).then(resp => handleResult(resp, true))
.catch(error => handleResult(error, false)).finally(process)`.
The two `.finally` stages pass values through unchanged.  A fulfilment
runs `handleResult` with success = true; if that throws (or yields a
rejected promise), the `.catch` stage runs `handleResult` on the thrown
value with success = false.  A rejection of the adapter call skips the
`.then` stage and reaches `.catch` directly.  A residual `Except.error`
is an unhandled rejection. -/
def settleChain (maxRetry retried : Nat)
    (shouldRetry : JsVal → Except JsVal (Option Bool))
    (settled : Except JsVal JsVal) : Except JsVal HandleAction :=
  let afterThen :=
    match settled with
    | .ok v => handleResult maxRetry retried shouldRetry v true
    | .error e => .error e
  match afterThen with
  | .ok a => .ok a
  | .error e => handleResult maxRetry retried shouldRetry e false

/-- Iterates `#handleResult_` for one item whose every adapter attempt
fails (settles as a rejection, so success = false) with no configured
`shouldRetry` predicate: each `.requeue` decision leads to another
attempt.  `err k` is the error value produced by the k-th attempt
(0-based); `attempt` counts attempts already made and `retried` is the
current retry counter of the item.  Returns the total number of attempts
and the value handed to the failure callback. -/
def runFailing (maxRetry : Nat) (err : Nat → JsVal) (attempt retried : Nat) :
    Nat × JsVal :=
  if h : handleResult_ maxRetry retried (err attempt) false none = .requeue then
    runFailing maxRetry err (attempt + 1) (retried + 1)
  else (attempt + 1, err attempt)
termination_by maxRetry + 1 - retried
decreasing_by
  rcases Nat.lt_or_ge retried maxRetry with hlt | hge
  · omega
  · exact absurd h (by simp [handleResult_, Nat.le_of_lt_succ, hge])

/-- The user-supplied throttle configuration; `none` stands for an absent
(or explicitly undefined) field. -/
structure ThrottleConfig where
  maxConcurrency : Option Int := none
  interval : Option Int := none
  maxRetry : Option Int := none
  capacity : Option Int := none
deriving DecidableEq

/-- The configuration after `fillDefaults`: every numeric field present. -/
structure ResolvedConfig where
  maxConcurrency : Int
  interval : Int
  maxRetry : Int
  capacity : Int
deriving DecidableEq

/-- fillDefaults (utils.ts): spreads the user configuration over the
defaults `maxConcurrency = 0, interval = 0, maxRetry = 1, capacity = 0`,
then sets `maxConcurrency = 1` when `config.maxConcurrency === undefined
&& config.interval !== undefined`. -/
def fillDefaults (config : ThrottleConfig) : ResolvedConfig :=
  let result : ResolvedConfig :=
    { maxConcurrency := config.maxConcurrency.getD 0
      interval := config.interval.getD 0
      maxRetry := config.maxRetry.getD 1
      capacity := config.capacity.getD 0 }
  if config.maxConcurrency.isNone && config.interval.isSome then
    { result with maxConcurrency := 1 }
  else result

/-- The immutable pool parameters set by the RequestPool constructor
(RequestPool.ts lines 38-51).  `maxConcurrency = none` models the
`Infinity` stored when the resolved value is not positive; `some n`
keeps the finite value.  The other three fields are clamped with
`Math.max(0, _)`. -/
structure PoolCfg where
  maxConcurrency : Option Nat
  interval : Nat
  maxRetry : Nat
  capacity : Nat
deriving DecidableEq

/-- The RequestPool constructor applied to a user configuration. -/
def mkPoolCfg (init : ThrottleConfig) : PoolCfg :=
  let config := fillDefaults init
  { maxConcurrency :=
      if 0 < config.maxConcurrency then some config.maxConcurrency.toNat else none
    interval := (max 0 config.interval).toNat
    maxRetry := (max 0 config.maxRetry).toNat
    capacity := (max 0 config.capacity).toNat }

/-- Whether the constructor allocated the `#timestamps` ring:
`config.maxConcurrency > 0 && config.interval > 0`.  On `PoolCfg` the
first conjunct is `maxConcurrency.isSome` and the second survives the
clamping unchanged. -/
def PoolCfg.hasTimestamps (c : PoolCfg) : Bool :=
  c.maxConcurrency.isSome && decide (0 < c.interval)

/-- One queued request: its identity (standing for the original call
parameters and callbacks) and its retry counter. -/
structure Item where
  id : Nat
  retried : Nat
deriving DecidableEq

/-- The mutable state of a RequestPool.  `queue` is the backing array
`#queue` (entries may be holes, as in a fresh `new Array(capacity)`),
`idx` and `endIdx` are the `#index`/`#end` cursors, `concurrency` is the
`#concurrency` in-flight counter and `timestamps` the `#timestamps`
ring.  `inflight` holds the items whose adapter call has started but not
settled, and `classifying` the items whose settlement is being
classified (between the concurrency decrement and the handleResult
effect, which may be separated by an awaited asynchronous shouldRetry). -/
structure PoolState where
  queue : List (Option Item)
  idx : Nat
  endIdx : Nat
  concurrency : Nat
  inflight : List Item
  classifying : List Item
  timestamps : List Nat
deriving DecidableEq

/-- The state right after the constructor ran: for `capacity > 0` the
queue is `new Array(capacity)` (all holes), otherwise a growable empty
array; the timestamp ring has `maxConcurrency` slots when allocated. -/
def initState (c : PoolCfg) : PoolState :=
  { queue := List.replicate c.capacity none
    idx := 0
    endIdx := 0
    concurrency := 0
    inflight := []
    classifying := []
    timestamps :=
      List.replicate (if c.hasTimestamps then c.maxConcurrency.getD 0 else 0) 0 }

/-- RequestPool.#push (lines 72-78): write at `#end % capacity` in the
circular buffer when capacity > 0, else grow the array; increment `#end`. -/
def push (c : PoolCfg) (st : PoolState) (item : Item) : PoolState :=
  { st with
    queue :=
      if c.capacity ≠ 0 then st.queue.set (st.endIdx % c.capacity) (some item)
      else st.queue ++ [some item]
    endIdx := st.endIdx + 1 }

/-- RequestPool get #nextTimestamp (lines 53-60): none when the ring is
absent, 0 before the ring has wrapped, else the recorded timestamp of
`maxConcurrency` admissions ago plus the interval. -/
def nextTimestamp (c : PoolCfg) (st : PoolState) : Option Nat :=
  match c.maxConcurrency with
  | none => none
  | some mc =>
    if c.hasTimestamps then
      if st.idx < mc then some 0
      else some (st.timestamps.getD (st.idx % mc) 0 + c.interval)
    else none

/-- RequestPool.#pop (lines 62-70): undefined when the cursors meet; else
read the slot (`#index % capacity` for a bounded queue, `#index`
otherwise, possibly a hole), record the admission timestamp and advance
`#index`.  Returns the item read together with the updated state. -/
def pop (c : PoolCfg) (st : PoolState) (now : Nat) : Option Item × PoolState :=
  if st.idx ≥ st.endIdx then (none, st)
  else
    let slot := if c.capacity ≠ 0 then st.idx % c.capacity else st.idx
    let item := st.queue.getD slot none
    let ts :=
      if c.hasTimestamps then st.timestamps.set (st.idx % c.maxConcurrency.getD 1) now
      else st.timestamps
    (item, { st with idx := st.idx + 1, timestamps := ts })

/-- The message of the error thrown by `add` on a full pool. -/
def poolFullMsg : String := "Request pool is full"

/-- RequestPool.add (lines 121-131), up to the synchronous `#process`
trigger (modelled as a separate scheduler step): throw when
`capacity > 0 && #end - #index >= capacity`, else enqueue a fresh item
with retry counter 0. -/
def add (c : PoolCfg) (st : PoolState) (id : Nat) : Except String PoolState :=
  if 0 < c.capacity ∧ c.capacity ≤ st.endIdx - st.idx then .error poolFullMsg
  else .ok (push c st { id := id, retried := 0 })

/-- The early-return guard of `#process` (line 100):
`#concurrency >= maxConcurrency`, never true for `Infinity`. -/
def concFull (c : PoolCfg) (st : PoolState) : Bool :=
  match c.maxConcurrency with
  | none => false
  | some n => decide (n ≤ st.concurrency)

/-- Whether `#process` may proceed past the interval check at time `now`
(lines 102-109): true when `#nextTimestamp` is undefined or not in the
future. -/
def timeOk (c : PoolCfg) (st : PoolState) (now : Nat) : Bool :=
  match nextTimestamp c st with
  | none => true
  | some t => decide (t ≤ now)

/-- The state change performed once a settlement has been classified:
the item leaves the classifying set and, on a `.requeue` decision,
`#handleResult_` increments its retry counter and pushes it back. -/
def classifyEffect (c : PoolCfg) (st : PoolState) (item : Item)
    (a : HandleAction) : PoolState :=
  let st1 := { st with classifying := st.classifying.erase item }
  match a with
  | .requeue => push c st1 { item with retried := item.retried + 1 }
  | _ => st1

/-- One scheduler step of a pool.  `addItem` is a successful `add` call
(a full pool throws instead, leaving the state unchanged); `launch` is
`#process` admitting the popped item to the adapter (lines 110-114);
`popMiss` is `#process` popping nothing; `defer` is the
`setTimeout` rescheduling when the interval is not yet satisfied;
`settleStep` is the `.finally` decrement when an adapter call settles
(line 115); `classifyStep` applies `#handleResult_` to a settled item,
for an arbitrary settlement value, success flag and shouldRetry answer. -/
inductive Step (c : PoolCfg) : PoolState → PoolState → Prop where
  | addItem (st : PoolState) (id : Nat)
      (hfull : ¬(0 < c.capacity ∧ c.capacity ≤ st.endIdx - st.idx)) :
      Step c st (push c st { id := id, retried := 0 })
  | launch (st st' : PoolState) (now : Nat) (item : Item)
      (hconc : concFull c st = false)
      (htime : timeOk c st now = true)
      (hpop : pop c st now = (some item, st')) :
      Step c st
        { st' with concurrency := st'.concurrency + 1
                   inflight := item :: st'.inflight }
  | popMiss (st st' : PoolState) (now : Nat)
      (hconc : concFull c st = false)
      (htime : timeOk c st now = true)
      (hpop : pop c st now = (none, st')) :
      Step c st st'
  | defer (st : PoolState) (now : Nat)
      (hconc : concFull c st = false)
      (htime : timeOk c st now = false) :
      Step c st st
  | settleStep (st : PoolState) (item : Item)
      (hmem : item ∈ st.inflight) :
      Step c st
        { st with concurrency := st.concurrency - 1
                  inflight := st.inflight.erase item
                  classifying := item :: st.classifying }
  | classifyStep (st : PoolState) (item : Item) (result : JsVal)
      (success : Bool) (d : Option Bool)
      (hmem : item ∈ st.classifying) :
      Step c st
        (classifyEffect c st item
          (handleResult_ c.maxRetry item.retried result success d))

/-- The states a pool can reach from its initial state by scheduler steps. -/
inductive Reachable (c : PoolCfg) : PoolState → Prop where
  | init : Reachable c (initState c)
  | step {st st' : PoolState} :
      Reachable c st → Step c st st' → Reachable c st'

/-- The components of a parsed URL that the dispatcher reads:
`href`, `host`, `origin` and `pathname`. -/
structure Url where
  href : String
  host : String
  origin : String
  pathname : String
deriving DecidableEq

/-- The throttle scope of a routing key. -/
inductive ThrottleScope where
  | global
  | domain
  | path
deriving DecidableEq

/-- The rule registries of a ThrottledFetch instance
(ThrottledFetch.ts lines 14-22).  Pools are referred to by numeric
identifiers; predicate rules hold an arbitrary function of the parsed
URL, pattern rules a predicate on the full URL string (`regex.test`).
Registration order is list order, most recent last. -/
structure FetchState where
  customPools : List ((Url → Bool) × Nat)
  regexPools : List ((String → Bool) × Nat)
  urlPools : List (String × Nat)
  defaultPools : List (String × Nat)
  hasSubpathConfigs : Bool
  scope : ThrottleScope

/-- A `Map.get` over an association list of routing keys. -/
def lookupPool (pools : List (String × Nat)) (key : String) : Option Nat :=
  (pools.find? (fun e => e.1 == key)).map (fun e => e.2)

/-- The trailing-slash string used by the key normalisation. -/
def slash : String := "/"

/-- ThrottledFetch.getKey (lines 256-267): empty key for global scope,
the host for domain scope, and origin + pathname with a trailing slash
stripped for path scope.  A missing scope argument falls back to the
instance default scope. -/
def getKey (st : FetchState) (url : Url) (scope : Option ThrottleScope) : String :=
  match scope.getD st.scope with
  | .global => ""
  | .domain => url.host
  | .path =>
    let key := url.origin ++ url.pathname
    if key.endsWith slash then key.dropRight 1 else key

/-- The loop of getSubpathKeys: from an accumulated folder key, produce
one key per path segment, each extending the previous by one segment
followed by a slash; the final segment contributes no key. -/
def subpathKeysFrom (acc : String) : List String → List String
  | [] => []
  | part :: rest => acc :: subpathKeysFrom (acc ++ part ++ slash) rest

/-- ThrottledFetch.getSubpathKeys (lines 269-279): drop the leading slash
of the pathname, strip a trailing slash, split on slashes, build the
folder keys from the origin root downwards and return them deepest
first. -/
def getSubpathKeys (url : Url) : List String :=
  let pathname0 := url.pathname.drop 1
  let pathname :=
    if pathname0.endsWith slash then pathname0.dropRight 1 else pathname0
  let parts := pathname.splitOn slash
  (subpathKeysFrom (url.origin ++ slash) parts).reverse

/-- ThrottledFetch.getPool without pool creation (lines 281-312, `create`
false): custom rules scanned most recent first, then regex rules most
recent first, then the exact path key, then (when some path rule enabled
subpath matching and the exact key missed) the subpath keys deepest
first, then the domain key, and finally the default-pool cache under the
instance default scope. -/
def getPoolRo (st : FetchState) (url : Url) : Option Nat :=
  match (st.customPools.reverse).find? (fun it => it.1 url) with
  | some it => some it.2
  | none =>
    match (st.regexPools.reverse).find? (fun it => it.1 url.href) with
    | some it => some it.2
    | none =>
      let pool0 := lookupPool st.urlPools (getKey st url (some .path))
      let pool1 :=
        if st.hasSubpathConfigs && pool0.isNone then
          (getSubpathKeys url).findSome? (lookupPool st.urlPools)
        else pool0
      let pool2 := pool1 <|> lookupPool st.urlPools (getKey st url (some .domain))
      match pool2 with
      | some p => some p
      | none => lookupPool st.defaultPools (getKey st url none)

/-- The triple returned by ThrottledFetch.stats. -/
structure PoolCounters where
  completed : Nat
  active : Nat
  waiting : Nat
deriving DecidableEq

/-- Modelled from the spec: the `completed`, `active` and `waiting`
getters of RequestPool, which the stats method reads but which are not
part of the sources at hand.  Per the spec, `active` is the in-flight
counter, `waiting` the queue occupancy (tail minus head) and `completed`
a counter of completed requests, supplied here as an argument. -/
def poolCounters (completedCount : Nat) (ps : PoolState) : PoolCounters :=
  { completed := completedCount
    active := ps.concurrency
    waiting := ps.endIdx - ps.idx }

/-- ThrottledFetch.stats (lines 354-361): resolve the pool read-only
(`getPool` without `create`), read its three counters, defaulting each
to 0 (`?? 0`) when no pool exists for the target.  `poolStates` and
`completedCount` give each pool identifier its current state and its
completed count. -/
def stats (st : FetchState) (poolStates : Nat → PoolState)
    (completedCount : Nat → Nat) (url : Url) : PoolCounters :=
  match getPoolRo st url with
  | some p => poolCounters (completedCount p) (poolStates p)
  | none => { completed := 0, active := 0, waiting := 0 }

/-- The observable state of the promise returned by a dispatch call. -/
inductive FutureState where
  | pending
  | rejected (e : String)
deriving DecidableEq

/-- How one dispatch call returns to the caller: a synchronously thrown
error, or a returned future. -/
inductive InvokeOutcome where
  | thrown (e : String)
  | future (f : FutureState)
deriving DecidableEq

/-- The first dispatch argument, as classified by parseUrl: a URL object
(used as-is), or an input whose URL string fails to parse. -/
inductive FetchInput where
  | urlObj (u : Url)
  | badUrl (s : String)
deriving DecidableEq

/-- The message of the TypeError thrown on an unparseable URL. -/
def invalidUrlMsg : String := "Invalid URL"

/-- ThrottledFetch.parseUrl (lines 314-334): a URL object is used
directly; an unparseable string throws a TypeError synchronously. -/
def parseUrl : FetchInput → Except String Url
  | .urlObj u => .ok u
  | .badUrl _ => .error invalidUrlMsg

/-- ThrottledFetch.invoke (lines 343-346) at the level of the routed
pool, whose configuration and state are passed explicitly: parse the URL
(a parse failure is thrown synchronously, before any promise exists),
then return `new Promise((resolve, reject) => pool.add(args, resolve,
reject))`.  The executor of `new Promise` runs synchronously and a value
it throws is caught by the Promise constructor and turned into a
rejection of the returned promise, so a throwing `add` yields a rejected
future, not a synchronous throw. -/
def invoke (c : PoolCfg) (st : PoolState) (input : FetchInput) (id : Nat) :
    InvokeOutcome × PoolState :=
  match parseUrl input with
  | .error e => (.thrown e, st)
  | .ok _ =>
    match add c st id with
    | .error e => (.future (.rejected e), st)
    | .ok st' => (.future .pending, st')

/-- The pool configuration `maxConcurrency = 1, maxRetry = 1, capacity = 1`
used by the capacity-overflow trace. -/
def c2cfg : PoolCfg :=
  mkPoolCfg { maxConcurrency := some 1, maxRetry := some 1, capacity := some 1 }

/-- Trace state after the first request (item 0) was added. -/
def c2s1 : PoolState :=
  { queue := [some { id := 0, retried := 0 }], idx := 0, endIdx := 1
    concurrency := 0, inflight := [], classifying := [], timestamps := [] }

/-- Intermediate state produced by the pop inside the first admission. -/
def c2s1p : PoolState :=
  { queue := [some { id := 0, retried := 0 }], idx := 1, endIdx := 1
    concurrency := 0, inflight := [], classifying := [], timestamps := [] }

/-- Trace state after item 0 was admitted to the adapter. -/
def c2s2 : PoolState :=
  { queue := [some { id := 0, retried := 0 }], idx := 1, endIdx := 1
    concurrency := 1, inflight := [{ id := 0, retried := 0 }]
    classifying := [], timestamps := [] }

/-- Trace state after a second request (item 1) was added while item 0 is
in flight: the single waiting slot is occupied by item 1. -/
def c2s3 : PoolState :=
  { queue := [some { id := 1, retried := 0 }], idx := 1, endIdx := 2
    concurrency := 1, inflight := [{ id := 0, retried := 0 }]
    classifying := [], timestamps := [] }

/-- Trace state after the adapter call for item 0 settled (failed). -/
def c2s4 : PoolState :=
  { queue := [some { id := 1, retried := 0 }], idx := 1, endIdx := 2
    concurrency := 0, inflight := [], classifying := [{ id := 0, retried := 0 }]
    timestamps := [] }

/-- Trace state after the failed item 0 was re-enqueued by the retry
branch of the classification: the push wrapped around the size-1 buffer
and overwrote the waiting item 1, and the occupancy cursor difference
reached 2 with capacity 1. -/
def c2s5 : PoolState :=
  { queue := [some { id := 0, retried := 1 }], idx := 1, endIdx := 3
    concurrency := 0, inflight := [], classifying := [], timestamps := [] }

/-- A configuration with `capacity = 1` and everything else defaulted. -/
def c5cfg : PoolCfg := mkPoolCfg { capacity := some 1 }

/-- A pool state of occupancy 1 (one waiting item, cursors 0 and 1). -/
def c5full : PoolState :=
  { queue := [some { id := 0, retried := 0 }], idx := 0, endIdx := 1
    concurrency := 0, inflight := [], classifying := [], timestamps := [] }

/-- A concrete parsed URL used by the dispatcher witnesses. -/
def c6url : Url := { href := "o/a", host := "h", origin := "o", pathname := "/a" }

/-- A dispatcher state with two predicate rules (both matching), one
pattern rule, path and domain keys and a global default pool, for the
precedence witness. -/
def c4state : FetchState :=
  { customPools := [(fun _ => false, 10), (fun _ => true, 11)]
    regexPools := [(fun _ => true, 20)]
    urlPools := [("o/a", 30), ("h", 31)]
    defaultPools := [("", 40)]
    hasSubpathConfigs := false
    scope := .global }

/-- A dispatcher state with a single predicate rule routing to pool 5. -/
def c8state : FetchState :=
  { customPools := [(fun _ => true, 5)]
    regexPools := []
    urlPools := []
    defaultPools := []
    hasSubpathConfigs := false
    scope := .global }

/-- A dispatcher state with no rules and no default pools. -/
def c8empty : FetchState :=
  { customPools := []
    regexPools := []
    urlPools := []
    defaultPools := []
    hasSubpathConfigs := false
    scope := .global }

/-- A pool state with one in-flight request and two waiting requests. -/
def c8poolState : PoolState :=
  { queue := [some { id := 2, retried := 0 }, some { id := 3, retried := 0 }]
    idx := 1, endIdx := 3, concurrency := 1
    inflight := [{ id := 1, retried := 0 }], classifying := [], timestamps := [] }

/-- Pool-state assignment for the stats witness. -/
def c8states : Nat → PoolState := fun _ => c8poolState

/-- Completed-count assignment for the stats witness. -/
def c8counts : Nat → Nat := fun _ => 7

/-- A shouldRetry predicate that throws the value `exn 7` when applied to
the fulfilled response `resp true 0` and explicitly declines a retry on
any other value. -/
def c10sr : JsVal → Except JsVal (Option Bool) :=
  fun w => if w = .resp true 0 then .error (.exn 7) else .ok (some false)

/-- Pushing an item changes neither the in-flight counter nor the
in-flight and classifying sets. -/
theorem push_concurrency (c : PoolCfg) (st : PoolState) (it : Item) :
    (push c st it).concurrency = st.concurrency := rfl

theorem push_inflight (c : PoolCfg) (st : PoolState) (it : Item) :
    (push c st it).inflight = st.inflight := rfl

/-- Popping changes neither the in-flight counter nor the in-flight set. -/
theorem pop_concurrency (c : PoolCfg) (st : PoolState) (now : Nat) :
    ((pop c st now).2).concurrency = st.concurrency := by
  unfold pop; split <;> rfl

theorem pop_inflight (c : PoolCfg) (st : PoolState) (now : Nat) :
    ((pop c st now).2).inflight = st.inflight := by
  unfold pop; split <;> rfl

/-- Classification changes neither the in-flight counter nor the
in-flight set: it only touches the classifying set and the queue. -/
theorem classifyEffect_concurrency (c : PoolCfg) (st : PoolState)
    (item : Item) (a : HandleAction) :
    (classifyEffect c st item a).concurrency = st.concurrency := by
  unfold classifyEffect; cases a <;> rfl

theorem classifyEffect_inflight (c : PoolCfg) (st : PoolState)
    (item : Item) (a : HandleAction) :
    (classifyEffect c st item a).inflight = st.inflight := by
  unfold classifyEffect; cases a <;> rfl

/-- Default classification of a failed settlement once the retry counter
has reached the bound: the failure callback fires. -/
theorem handleResult_fail_default (maxRetry retried : Nat) (v : JsVal)
    (h : maxRetry ≤ retried) :
    handleResult_ maxRetry retried v false none = .failure v := by
  simp [handleResult_, h]

/-- Default classification of a failed settlement while retries remain:
the item is re-enqueued. -/
theorem handleResult_requeue_default (maxRetry retried : Nat) (v : JsVal)
    (h : retried < maxRetry) :
    handleResult_ maxRetry retried v false none = .requeue := by
  simp [handleResult_, Nat.not_le.mpr h]

/-- Scanning a list in reverse returns the last element satisfying the
predicate: concretely, the marked element when everything after it
fails the predicate. -/
theorem find_last_of_matches {α : Type} (l1 l2 : List α) (p : α → Bool)
    (a : α) (ha : p a = true) (h2 : ∀ x ∈ l2, p x = false) :
    ((l1 ++ a :: l2).reverse).find? p = some a := by
  rw [List.reverse_append, List.reverse_cons]
  have h2r : l2.reverse.find? p = none := by
    rw [List.find?_eq_none]
    intro x hx
    simp [h2 x (List.mem_reverse.mp hx)]
  simp [List.find?_append, h2r, ha]

/-- Iterating the default failure classification from retry counter
`retried` with `d` retries remaining performs `d + 1` further attempts
and hands the failure callback the value of the final attempt. -/
theorem runFailing_general (d maxRetry attempt retried : Nat)
    (err : Nat → JsVal) (hd : retried + d = maxRetry) :
    runFailing maxRetry err attempt retried = (attempt + d + 1, err (attempt + d)) := by
  induction d generalizing attempt retried with
  | zero =>
    have hge : maxRetry ≤ retried := by omega
    unfold runFailing
    rw [dif_neg (by simp [handleResult_fail_default maxRetry retried _ hge])]
    simp
  | succ d ih =>
    have hlt : retried < maxRetry := by omega
    unfold runFailing
    rw [dif_pos (handleResult_requeue_default maxRetry retried _ hlt)]
    have := ih (attempt + 1) (retried + 1) (by omega)
    rw [this]
    have h1 : attempt + 1 + d = attempt + (d + 1) := by omega
    rw [h1]

/-- C1: for every pool configured with a finite maxConcurrency N, in every
state reachable by add, admission, deferral and completion steps, the
in-flight counter is at most N, and so is the number of adapter calls
currently in flight. -/
theorem pool_inflight_bounded (c : PoolCfg) (N : Nat)
    (hN : c.maxConcurrency = some N) {st : PoolState}
    (hst : Reachable c st) :
    st.concurrency ≤ N ∧ st.inflight.length ≤ N := by
  suffices h : st.inflight.length = st.concurrency ∧ st.concurrency ≤ N by
    exact ⟨h.2, h.1 ▸ h.2⟩
  induction hst with
  | init => simp [initState]
  | step hr hs ih =>
    rename_i s1 s2
    cases hs with
    | addItem id hfull =>
      simpa [push_concurrency, push_inflight] using ih
    | launch s' now item hconc htime hpop =>
      have hc2 : s'.concurrency = s1.concurrency := by
        have := congrArg (fun q => q.2.concurrency) hpop
        simpa [pop_concurrency] using this.symm
      have hi2 : s'.inflight = s1.inflight := by
        have := congrArg (fun q => q.2.inflight) hpop
        simpa [pop_inflight] using this.symm
      have hlt : s1.concurrency < N := by
        simp [concFull, hN] at hconc
        omega
      constructor
      · simp [hc2, hi2, ih.1]
      · simp only [hc2]
        omega
    | popMiss _ now hconc htime hpop =>
      have hc2 : s2.concurrency = s1.concurrency := by
        have := congrArg (fun q => q.2.concurrency) hpop
        simpa [pop_concurrency] using this.symm
      have hi2 : s2.inflight = s1.inflight := by
        have := congrArg (fun q => q.2.inflight) hpop
        simpa [pop_inflight] using this.symm
      exact ⟨by rw [hc2, hi2]; exact ih.1, hc2 ▸ ih.2⟩
    | defer now hconc htime => exact ih
    | settleStep item hmem =>
      have hlen : (s1.inflight.erase item).length + 1 = s1.inflight.length :=
        List.length_erase_add_one hmem
      refine ⟨?_, ?_⟩ <;> simp
      · omega
      · omega
    | classifyStep item result success d hmem =>
      simpa [classifyEffect_concurrency, classifyEffect_inflight] using ih

/-- Witness for C1: a pool configured with maxConcurrency 3 resolves to
the finite bound some 3, and in its initial (reachable) state both the
in-flight counter and the in-flight set are bounded by 3. -/
theorem pool_inflight_bounded_witness :
    (mkPoolCfg { maxConcurrency := some 3 }).maxConcurrency = some 3 ∧
    ((initState (mkPoolCfg { maxConcurrency := some 3 })).concurrency ≤ 3 ∧
     (initState (mkPoolCfg { maxConcurrency := some 3 })).inflight.length ≤ 3) :=
  ⟨by decide,
   pool_inflight_bounded (mkPoolCfg { maxConcurrency := some 3 }) 3
     (by decide) Reachable.init⟩

/-- C2 evidence: with capacity 1, maxConcurrency 1 and maxRetry 1, the
state c2s5 is reachable (add item 0; admit it; add item 1; item 0 fails;
the retry branch re-enqueues item 0), yet its queue occupancy
endIdx - idx is 2, exceeding the capacity 1, and the single buffer slot
now holds the retried item 0: the waiting item 1 has been overwritten
and is lost. -/
theorem pool_capacity_overflow_on_retry :
    Reachable c2cfg c2s5 ∧ c2cfg.capacity = 1 ∧
    c2s5.endIdx - c2s5.idx = 2 ∧
    c2s5.queue = [some { id := 0, retried := 1 }] := by
  refine ⟨?_, by decide, by decide, by decide⟩
  have r0 : Reachable c2cfg (initState c2cfg) := Reachable.init
  have e1 : push c2cfg (initState c2cfg) { id := 0, retried := 0 } = c2s1 := by decide
  have r1 : Reachable c2cfg c2s1 :=
    .step r0 (e1 ▸ Step.addItem (initState c2cfg) 0 (by decide))
  have hpop : pop c2cfg c2s1 0 = (some { id := 0, retried := 0 }, c2s1p) := by decide
  have e2 : ({ c2s1p with
      concurrency := c2s1p.concurrency + 1
      inflight := { id := 0, retried := 0 } :: c2s1p.inflight } : PoolState) = c2s2 := by
    decide
  have r2 : Reachable c2cfg c2s2 :=
    .step r1 (e2 ▸ Step.launch c2s1 c2s1p 0 { id := 0, retried := 0 }
      (by decide) (by decide) hpop)
  have e3 : push c2cfg c2s2 { id := 1, retried := 0 } = c2s3 := by decide
  have r3 : Reachable c2cfg c2s3 :=
    .step r2 (e3 ▸ Step.addItem c2s2 1 (by decide))
  have e4 : ({ c2s3 with
      concurrency := c2s3.concurrency - 1
      inflight := c2s3.inflight.erase { id := 0, retried := 0 }
      classifying := { id := 0, retried := 0 } :: c2s3.classifying } : PoolState) = c2s4 := by
    decide
  have r4 : Reachable c2cfg c2s4 :=
    .step r3 (e4 ▸ Step.settleStep c2s3 { id := 0, retried := 0 } (by decide))
  have e5 : classifyEffect c2cfg c2s4 { id := 0, retried := 0 }
      (handleResult_ c2cfg.maxRetry ({ id := 0, retried := 0 } : Item).retried
        (.exn 0) false none) = c2s5 := by decide
  exact .step r4 (e5 ▸ Step.classifyStep c2s4 { id := 0, retried := 0 }
    (.exn 0) false none (by decide))

/-- C3: under the default classification, a request whose adapter always
fails is attempted exactly maxRetry + 1 times, the failure callback then
receives the outcome of the final attempt, and with maxRetry = 0 exactly
one attempt is made. -/
theorem retry_attempt_count (maxRetry : Nat) (err : Nat → JsVal) :
    runFailing maxRetry err 0 0 = (maxRetry + 1, err maxRetry) ∧
    runFailing 0 err 0 0 = (1, err 0) := by
  constructor
  · simpa using runFailing_general maxRetry maxRetry 0 0 err (by omega)
  · simpa using runFailing_general 0 0 0 0 err (by omega)

/-- C4: the dispatcher resolves a URL to the pool of the
highest-precedence matching rule, in the order predicate rules, pattern
rules, exact path key, subpath keys (deepest first, only when some path
rule enabled subpath matching), domain key, default pool; within the
predicate and the pattern registries the most recently registered
matching rule wins (lists are scanned in reverse registration order). -/
theorem getPool_precedence (st : FetchState) (url : Url) :
    (∀ (l1 l2 : List ((Url → Bool) × Nat)) (m : Url → Bool) (pid : Nat),
      st.customPools = l1 ++ (m, pid) :: l2 → m url = true →
      (∀ q ∈ l2, q.1 url = false) → getPoolRo st url = some pid) ∧
    ((∀ q ∈ st.customPools, q.1 url = false) →
      ∀ (l1 l2 : List ((String → Bool) × Nat)) (r : String → Bool) (pid : Nat),
        st.regexPools = l1 ++ (r, pid) :: l2 → r url.href = true →
        (∀ q ∈ l2, q.1 url.href = false) → getPoolRo st url = some pid) ∧
    ((∀ q ∈ st.customPools, q.1 url = false) →
      (∀ q ∈ st.regexPools, q.1 url.href = false) →
      ∀ pid, lookupPool st.urlPools (getKey st url (some .path)) = some pid →
        getPoolRo st url = some pid) ∧
    ((∀ q ∈ st.customPools, q.1 url = false) →
      (∀ q ∈ st.regexPools, q.1 url.href = false) →
      lookupPool st.urlPools (getKey st url (some .path)) = none →
      st.hasSubpathConfigs = true →
      ∀ pid, (getSubpathKeys url).findSome? (lookupPool st.urlPools) = some pid →
        getPoolRo st url = some pid) ∧
    ((∀ q ∈ st.customPools, q.1 url = false) →
      (∀ q ∈ st.regexPools, q.1 url.href = false) →
      lookupPool st.urlPools (getKey st url (some .path)) = none →
      (st.hasSubpathConfigs = true →
        (getSubpathKeys url).findSome? (lookupPool st.urlPools) = none) →
      ∀ pid, lookupPool st.urlPools (getKey st url (some .domain)) = some pid →
        getPoolRo st url = some pid) ∧
    ((∀ q ∈ st.customPools, q.1 url = false) →
      (∀ q ∈ st.regexPools, q.1 url.href = false) →
      lookupPool st.urlPools (getKey st url (some .path)) = none →
      (st.hasSubpathConfigs = true →
        (getSubpathKeys url).findSome? (lookupPool st.urlPools) = none) →
      lookupPool st.urlPools (getKey st url (some .domain)) = none →
      getPoolRo st url = lookupPool st.defaultPools (getKey st url none)) := by
  have Hc : (∀ q ∈ st.customPools, q.1 url = false) →
      (st.customPools.reverse).find? (fun it => it.1 url) = none := by
    intro h
    rw [List.find?_eq_none]
    intro x hx
    simp [h x (List.mem_reverse.mp hx)]
  have Hr : (∀ q ∈ st.regexPools, q.1 url.href = false) →
      (st.regexPools.reverse).find? (fun it => it.1 url.href) = none := by
    intro h
    rw [List.find?_eq_none]
    intro x hx
    simp [h x (List.mem_reverse.mp hx)]
  refine ⟨?_, ?_, ?_, ?_, ?_, ?_⟩
  · intro l1 l2 m pid hcs hm hl2
    have hfind : (st.customPools.reverse).find? (fun it => it.1 url) = some (m, pid) := by
      rw [hcs]
      exact find_last_of_matches l1 l2 _ (m, pid) hm hl2
    simp [getPoolRo, hfind]
  · intro hcall l1 l2 r pid hrs hm hl2
    have hfind : (st.regexPools.reverse).find? (fun it => it.1 url.href) = some (r, pid) := by
      rw [hrs]
      exact find_last_of_matches l1 l2 _ (r, pid) hm hl2
    simp [getPoolRo, Hc hcall, hfind]
  · intro hcall hrall pid hpath
    simp [getPoolRo, Hc hcall, Hr hrall, hpath]
  · intro hcall hrall hpath hsub pid hfs
    simp [getPoolRo, Hc hcall, Hr hrall, hpath, hsub, hfs]
  · intro hcall hrall hpath hsubnone pid hdom
    by_cases hs : st.hasSubpathConfigs = true
    · simp [getPoolRo, Hc hcall, Hr hrall, hpath, hs, hsubnone hs, hdom]
    · simp only [Bool.not_eq_true] at hs
      simp [getPoolRo, Hc hcall, Hr hrall, hpath, hs, hdom]
  · intro hcall hrall hpath hsubnone hdom
    by_cases hs : st.hasSubpathConfigs = true
    · simp [getPoolRo, Hc hcall, Hr hrall, hpath, hs, hsubnone hs, hdom]
    · simp only [Bool.not_eq_true] at hs
      simp [getPoolRo, Hc hcall, Hr hrall, hpath, hs, hdom]

/-- Witness for C4: in a dispatcher state where two predicate rules, one
pattern rule, an exact path key, a domain key and a global default pool
all match the URL, routing selects the most recently registered matching
predicate rule (pool 11). -/
theorem getPool_precedence_witness : getPoolRo c4state c6url = some 11 := by
  refine (getPool_precedence c4state c6url).1
    [(fun _ => false, 10)] [] (fun _ => true) 11 rfl rfl ?_
  intro q hq
  exact (List.not_mem_nil q hq).elim

/-- C5: with capacity C > 0, an add while the occupancy endIdx - idx is
at least C (in particular equal to C) throws the capacity error
synchronously without enqueueing, so the request never reaches the
adapter; once the occupancy is below C again, add succeeds and enqueues
the item (advancing the tail cursor). -/
theorem add_capacity_gate (c : PoolCfg) (st : PoolState) (id : Nat)
    (hcap : 0 < c.capacity) :
    (c.capacity ≤ st.endIdx - st.idx → add c st id = .error poolFullMsg) ∧
    (st.endIdx - st.idx < c.capacity →
      add c st id = .ok (push c st { id := id, retried := 0 }) ∧
      (push c st { id := id, retried := 0 }).endIdx = st.endIdx + 1) := by
  constructor
  · intro h
    simp [add, hcap, h]
  · intro h
    refine ⟨?_, rfl⟩
    simp [add, Nat.not_le.mpr h]

/-- Witness for C5: with capacity 1, an add at occupancy 1 throws the
capacity error, while an add on the empty pool succeeds. -/
theorem add_capacity_gate_witness :
    add c5cfg c5full 1 = .error poolFullMsg ∧
    add c5cfg (initState c5cfg) 1 =
      .ok (push c5cfg (initState c5cfg) { id := 1, retried := 0 }) :=
  ⟨(add_capacity_gate c5cfg c5full 1 (by decide)).1 (by decide),
   ((add_capacity_gate c5cfg (initState c5cfg) 1 (by decide)).2 (by decide)).1⟩

/-- Counterexample for C6: dispatching to a pool at capacity does not
throw synchronously; the invoke result is a returned future that is
already rejected with the capacity error. -/
theorem invoke_capacity_sync_counterexample :
    (invoke c5cfg c5full (.urlObj c6url) 1).1 = .future (.rejected poolFullMsg) ∧
    (invoke c5cfg c5full (.urlObj c6url) 1).1 ≠ .thrown poolFullMsg := by
  constructor
  · decide
  · decide

/-- C6 as amended: for every dispatch call whose URL parses and whose
target pool is at capacity, the capacity error surfaces as an immediate
rejection of the returned future (the throw inside the promise executor
is converted to a rejection by the Promise constructor), the pool state
is unchanged, and no synchronous throw occurs; only URL-parsing errors
throw synchronously. -/
theorem invoke_capacity_rejects_future (c : PoolCfg) (st : PoolState)
    (u : Url) (id : Nat) (hcap : 0 < c.capacity)
    (hocc : c.capacity ≤ st.endIdx - st.idx) :
    invoke c st (.urlObj u) id = (.future (.rejected poolFullMsg), st) := by
  simp [invoke, parseUrl, add, hcap, hocc]

/-- Witness for C6: the amended statement at the concrete full pool. -/
theorem invoke_capacity_rejects_future_witness :
    invoke c5cfg c5full (.urlObj c6url) 1 =
      (.future (.rejected poolFullMsg), c5full) :=
  invoke_capacity_rejects_future c5cfg c5full c6url 1 (by decide) (by decide)

/-- Counterexample for C7: with maxConcurrency unset and interval
explicitly set to 0, the resolved maxConcurrency is 1, not 0. -/
theorem fillDefaults_interval_zero_counterexample :
    (fillDefaults { maxConcurrency := none, interval := some 0,
                    maxRetry := none, capacity := none }).maxConcurrency = 1 ∧
    (fillDefaults { maxConcurrency := none, interval := some 0,
                    maxRetry := none, capacity := none }).maxConcurrency ≠ 0 := by
  constructor
  · decide
  · decide

/-- C7 as amended: with maxConcurrency unset, the resolved value is 1
whenever interval is explicitly provided (any value, including 0), and 0
(which the pool constructor maps to the unbounded Infinity) only when
interval is unset as well. -/
theorem fillDefaults_maxConcurrency_default (i : Int) (mr cap : Option Int) :
    (fillDefaults { maxConcurrency := none, interval := none,
                    maxRetry := mr, capacity := cap }).maxConcurrency = 0 ∧
    (fillDefaults { maxConcurrency := none, interval := some i,
                    maxRetry := mr, capacity := cap }).maxConcurrency = 1 ∧
    (mkPoolCfg { maxConcurrency := none, interval := none,
                 maxRetry := mr, capacity := cap }).maxConcurrency = none := by
  refine ⟨?_, ?_, ?_⟩ <;> simp [fillDefaults, mkPoolCfg]

/-- C8: stats returns the completed, active (in-flight counter) and
waiting (queue occupancy) counts of the pool that would handle the
target when one exists, and the all-zero triple when none does. -/
theorem stats_reports_pool_counts (st : FetchState)
    (poolStates : Nat → PoolState) (completedCount : Nat → Nat) (url : Url) :
    (∀ pid, getPoolRo st url = some pid →
      stats st poolStates completedCount url =
        { completed := completedCount pid
          active := (poolStates pid).concurrency
          waiting := (poolStates pid).endIdx - (poolStates pid).idx }) ∧
    (getPoolRo st url = none →
      stats st poolStates completedCount url =
        { completed := 0, active := 0, waiting := 0 }) := by
  constructor
  · intro pid hp
    simp [stats, hp, poolCounters]
  · intro hp
    simp [stats, hp]

/-- Witness for C8: a matching pool with one in-flight and two waiting
requests yields the triple (7, 1, 2); a dispatcher without any pool for
the target yields the zero triple. -/
theorem stats_reports_pool_counts_witness :
    stats c8state c8states c8counts c6url =
      { completed := 7, active := 1, waiting := 2 } ∧
    stats c8empty c8states c8counts c6url =
      { completed := 0, active := 0, waiting := 0 } := by
  constructor
  · exact (stats_reports_pool_counts c8state c8states c8counts c6url).1 5 rfl
  · exact (stats_reports_pool_counts c8empty c8states c8counts c6url).2 (by decide)

/-- Counterexample for C9: a non-success result (a completed response
with ok false) whose retries are exhausted under the default policy is
handed to the failure callback, not resolved as a success. -/
theorem nonSuccess_exhausted_counterexample :
    handleResult_ 0 0 (.resp false 0) true none = .failure (.resp false 0) ∧
    handleResult_ 0 0 (.resp false 0) true none ≠ .success (.resp false 0) := by
  constructor
  · decide
  · decide

/-- C9 as amended: a non-success result is delivered to the caller as a
success resolution exactly when shouldRetry explicitly returns false for
it; when retries are exhausted under the default policy, the caller
receives the non-success result value through the failure callback (the
returned future rejects with that result value). -/
theorem nonSuccess_result_routing (maxRetry retried tag : Nat) :
    handleResult_ maxRetry retried (.resp false tag) true (some false) =
      .success (.resp false tag) ∧
    (maxRetry ≤ retried →
      handleResult_ maxRetry retried (.resp false tag) true none =
        .failure (.resp false tag)) := by
  constructor
  · simp [handleResult_]
  · intro h
    simp [handleResult_, JsVal.isOk, h]

/-- Witness for C9: the amended statement at concrete counters. -/
theorem nonSuccess_result_routing_witness :
    handleResult_ 1 2 (.resp false 5) true (some false) = .success (.resp false 5) ∧
    handleResult_ 1 2 (.resp false 5) true none = .failure (.resp false 5) :=
  ⟨(nonSuccess_result_routing 1 2 5).1,
   (nonSuccess_result_routing 1 2 5).2 (by decide)⟩

/-- C10: when the shouldRetry predicate throws (or its promise rejects)
while classifying a fulfilled response, the settlement chain does not
surface that response; the thrown value is routed to the catch stage and
classification re-runs on it as a transport-level error of the same
item, invoking the predicate again on the thrown value. -/
theorem shouldRetry_throw_reclassifies (maxRetry retried : Nat)
    (sr : JsVal → Except JsVal (Option Bool)) (v e : JsVal)
    (h : sr v = .error e) :
    settleChain maxRetry retried sr (.ok v) = handleResult maxRetry retried sr e false ∧
    (∀ d, sr e = .ok d →
      settleChain maxRetry retried sr (.ok v) =
        .ok (handleResult_ maxRetry retried e false d)) := by
  constructor
  · simp [settleChain, handleResult, Except.map, h]
  · intro d hd
    simp [settleChain, handleResult, Except.map, h, hd]

/-- Witness for C10: a predicate throwing exn 7 on the fulfilled response
resp true 0 and declining a retry for exn 7 makes the chain fire the
failure callback with exn 7 instead of surfacing the response. -/
theorem shouldRetry_throw_reclassifies_witness :
    settleChain 1 0 c10sr (.ok (.resp true 0)) = .ok (.failure (.exn 7)) := by
  have h := (shouldRetry_throw_reclassifies 1 0 c10sr (.resp true 0) (.exn 7)
    (by simp [c10sr])).2 (some false) (by simp [c10sr])
  exact h.trans (by rfl)

end ThrottlerModel
